import Mathlib

/-!
Verification of the Turbine Selection Chart repository.

The repository has two entry points with the same decision logic:
`TurbineChartGUI.py` (a tkinter form) and an unnamed script
(`Turbine Selection Chart.py`).  Both hard-code three polygon envelopes
on the flow-head plane, classify a query point (Q, H) by point-in-polygon
containment, and compute power P = rho * g * Q * H * eff / 1000 with
rho = 998, g = 9.81 and a per-turbine efficiency table defaulting to 0.88.

We embed the numeric computations over ℚ (the Python floats carry exact
decimal literals here, and every claim is about the arithmetic formulas,
not float rounding).  The containment test the code delegates to
matplotlib `Path.contains_point` is modelled as the standard even-odd
ray-casting point-in-polygon test, which is what the spec calls
"standard point-in-polygon containment"; for points strictly inside or
strictly outside a simple polygon every correct containment algorithm
agrees, and the spec leaves boundary behaviour open.
-/

/-- A point of the flow-head plane: (Q, H) with Q the flow rate and H the net head. -/
abbrev Point : Type := ℚ × ℚ

/-- Does the horizontal ray going right from `p` cross the open-bottom
half-closed edge from `a` to `b`?  Standard even-odd ray-casting crossing
condition; when the edge is horizontal the straddle condition is false and
the (then irrelevant) division by zero never influences the result. -/
def edgeCrosses (p a b : Point) : Bool :=
  decide ((((a.2 ≤ p.2 ∧ p.2 < b.2) ∨ (b.2 ≤ p.2 ∧ p.2 < a.2)) ∧
    p.1 < a.1 + (b.1 - a.1) * (p.2 - a.2) / (b.2 - a.2)))

/-- The edges of the implicitly closed polygon: consecutive vertex pairs plus
the closing edge from the last vertex back to the first.  This is the closure
`poly = pts + [pts[0]]` both source files perform before building the
matplotlib `Path`. -/
def polygonEdges (poly : List Point) : List (Point × Point) :=
  match poly with
  | [] => []
  | v :: _ => poly.zip (poly.tail ++ [v])

/-- Model of matplotlib `Path.contains_point` on an implicitly closed polygon:
the point is inside when the rightward ray crosses an odd number of edges
(standard even-odd point-in-polygon containment). -/
def containsPoint (poly : List Point) (p : Point) : Bool :=
  (polygonEdges poly).countP (fun e => edgeCrosses p e.1 e.2) % 2 == 1

/-- Outcome of one evaluation: either a list of (turbine, power) pairs for the
matching envelopes, or the default-efficiency approximate power when no
envelope matched. -/
inductive Outcome where
  | matched : List (String × ℚ) → Outcome
  | noMatch : ℚ → Outcome
deriving DecidableEq

/-- Result of running an entry point on user input: an invalid-input error
(the GUI shows a message box and returns; the script aborts on the uncaught
`ValueError`), or a completed evaluation. -/
inductive PlotResult where
  | inputError : PlotResult
  | plotted : Outcome → PlotResult
deriving DecidableEq

namespace TurbineChartGUI

/-- Vertices of the Pelton envelope, from `define_envelopes` in
`src/TurbineChartGUI.py` (lines 11-14). -/
def pelton : List Point :=
  [(0.02, 120), (0.02, 1000), (3.5, 1000), (9.8, 350), (4.8, 60), (0.038, 60)]

/-- Vertices of the Francis envelope (`src/TurbineChartGUI.py`, lines 15-18). -/
def francis : List Point :=
  [(0.2, 12), (0.2, 36), (1.2, 350), (9.8, 350), (40, 85), (25, 20), (1.6, 7), (0.32, 7)]

/-- Vertices of the Kaplan envelope (`src/TurbineChartGUI.py`, lines 19-22). -/
def kaplan : List Point :=
  [(1.2, 2), (0.5, 4.5), (0.5, 7), (1.8, 30), (5.9, 48), (35.0, 48), (100.0, 18),
   (100.0, 2.9), (75.0, 2)]

/-- The envelope dictionary of `define_envelopes` (`src/TurbineChartGUI.py`,
lines 9-24), as an association list in Python dict insertion order. -/
def define_envelopes : List (String × List Point) :=
  [("Pelton", pelton), ("Francis", francis), ("Kaplan", kaplan)]

/-- The efficiency dictionary of `calculate_power` (`src/TurbineChartGUI.py`,
line 60). -/
def efficiencies : List (String × ℚ) :=
  [("Pelton", 0.915), ("Francis", 0.945), ("Kaplan", 0.94)]

/-- Model of `{...}.get(turbine, 0.88)`: a `None` key or a key absent from the
dictionary yields the default 0.88. -/
def effGet (turbine : Option String) : ℚ :=
  match turbine with
  | none => 0.88
  | some t => (efficiencies.lookup t).getD 0.88

/-- The power estimator `calculate_power` (`src/TurbineChartGUI.py`,
lines 57-61): P = rho * g * Q * H * eff / 1000 in kW. -/
def calculate_power (Q H : ℚ) (turbine : Option String) : ℚ :=
  let rho : ℚ := 998
  let g : ℚ := 9.81
  rho * g * Q * H * effGet turbine / 1000

/-- The classifier: the list comprehension
`[t for t, p in paths.items() if p.contains_point((Q, H))]`
(`src/TurbineChartGUI.py`, line 78), over the paths built from
`define_envelopes`, in dict insertion order. -/
def classify (Q H : ℚ) : List String :=
  (define_envelopes.filter (fun e => containsPoint e.2 (Q, H))).map Prod.fst

/-- The decision part of `create_plot` (`src/TurbineChartGUI.py`, lines 78-91):
if some envelope contains the point, compute per-turbine powers; otherwise the
approximate power with the default efficiency. -/
def create_plot (Q H : ℚ) : Outcome :=
  let suitable := classify Q H
  if !suitable.isEmpty then
    Outcome.matched (suitable.map (fun t => (t, calculate_power Q H (some t))))
  else
    Outcome.noMatch (calculate_power Q H none)

/-- The `on_plot` handler (`src/TurbineChartGUI.py`, lines 95-102): both entry
fields are parsed with `float(...)` inside one `try`; a `ValueError` shows an
error box and returns without plotting.  The parse attempts are modelled by
`Option ℚ` arguments (`none` = non-numeric text). -/
def on_plot (qs hs : Option ℚ) : PlotResult :=
  match qs, hs with
  | some q, some h => PlotResult.plotted (create_plot q h)
  | _, _ => PlotResult.inputError

end TurbineChartGUI

namespace TurbineChart

/-- Vertices of the Pelton envelope, from `define_envelopes` in
`src/unnamed/part_000` ("Turbine Selection Chart.py", lines 15-18). -/
def pelton : List Point :=
  [(0.02, 120), (0.02, 1000), (3.5, 1000), (9.8, 350), (4.8, 60), (0.038, 60)]

/-- Vertices of the Francis envelope (`src/unnamed/part_000`, lines 19-22). -/
def francis : List Point :=
  [(0.2, 12), (0.2, 36), (1.2, 350), (9.8, 350), (40, 85), (25, 20), (1.6, 7), (0.32, 7)]

/-- Vertices of the Kaplan envelope (`src/unnamed/part_000`, lines 23-26). -/
def kaplan : List Point :=
  [(1.2, 2), (0.5, 4.5), (0.5, 7), (1.8, 30), (5.9, 48), (35.0, 48), (100.0, 18),
   (100.0, 2.9), (75.0, 2)]

/-- The envelope dictionary of `define_envelopes` (`src/unnamed/part_000`,
lines 8-28), in Python dict insertion order. -/
def define_envelopes : List (String × List Point) :=
  [("Pelton", pelton), ("Francis", francis), ("Kaplan", kaplan)]

/-- The efficiency dictionary of `calculate_power` (`src/unnamed/part_000`,
lines 153-157). -/
def efficiencies : List (String × ℚ) :=
  [("Pelton", 0.915), ("Francis", 0.945), ("Kaplan", 0.94)]

/-- Model of `efficiencies.get(turbine_type, 0.88)` (`src/unnamed/part_000`,
line 159). -/
def effGet (turbine_type : Option String) : ℚ :=
  match turbine_type with
  | none => 0.88
  | some t => (efficiencies.lookup t).getD 0.88

/-- The power estimator `calculate_power` (`src/unnamed/part_000`,
lines 145-162). -/
def calculate_power (Q H : ℚ) (turbine_type : Option String) : ℚ :=
  let rho : ℚ := 998
  let g : ℚ := 9.81
  rho * g * Q * H * effGet turbine_type / 1000

/-- The classifier of `main` (`src/unnamed/part_000`, line 210):
`[name for name, path in paths.items() if path.contains_point((Q, H))]`. -/
def classify (Q H : ℚ) : List String :=
  (define_envelopes.filter (fun e => containsPoint e.2 (Q, H))).map Prod.fst

/-- The decision part of `main` (`src/unnamed/part_000`, lines 196-235): parse
the two console inputs with `float(...)` (an uncaught `ValueError` on
non-numeric text aborts the run), classify, and compute per-match powers or
the default-efficiency power. -/
def main (qs hs : Option ℚ) : PlotResult :=
  match qs, hs with
  | some Q, some H =>
      let suitable := classify Q H
      if !suitable.isEmpty then
        PlotResult.plotted
          (Outcome.matched (suitable.map (fun t => (t, calculate_power Q H (some t)))))
      else
        PlotResult.plotted (Outcome.noMatch (calculate_power Q H none))
  | _, _ => PlotResult.inputError

end TurbineChart

/-! Helper lemmas: concrete evaluations of the containment test and generic
facts about the classifier, shared by the claim theorems below. -/

/-- The Pelton envelope contains the example point (0.05, 500). -/
theorem pelton_contains_p1 : containsPoint TurbineChartGUI.pelton (0.05, 500) = true := by
  norm_num [containsPoint, polygonEdges, edgeCrosses, TurbineChartGUI.pelton,
    List.countP_cons, List.countP_nil]

/-- The Francis envelope does not contain (0.05, 500). -/
theorem francis_not_contains_p1 : containsPoint TurbineChartGUI.francis (0.05, 500) = false := by
  norm_num [containsPoint, polygonEdges, edgeCrosses, TurbineChartGUI.francis,
    List.countP_cons, List.countP_nil]

/-- The Kaplan envelope does not contain (0.05, 500). -/
theorem kaplan_not_contains_p1 : containsPoint TurbineChartGUI.kaplan (0.05, 500) = false := by
  norm_num [containsPoint, polygonEdges, edgeCrosses, TurbineChartGUI.kaplan,
    List.countP_cons, List.countP_nil]

/-- The Pelton envelope contains the overlap point (2, 300). -/
theorem pelton_contains_p2 : containsPoint TurbineChartGUI.pelton (2, 300) = true := by
  norm_num [containsPoint, polygonEdges, edgeCrosses, TurbineChartGUI.pelton,
    List.countP_cons, List.countP_nil]

/-- The Francis envelope also contains the overlap point (2, 300). -/
theorem francis_contains_p2 : containsPoint TurbineChartGUI.francis (2, 300) = true := by
  norm_num [containsPoint, polygonEdges, edgeCrosses, TurbineChartGUI.francis,
    List.countP_cons, List.countP_nil]

/-- The Pelton envelope does not contain (50, 1). -/
theorem pelton_not_contains_p3 : containsPoint TurbineChartGUI.pelton (50, 1) = false := by
  norm_num [containsPoint, polygonEdges, edgeCrosses, TurbineChartGUI.pelton,
    List.countP_cons, List.countP_nil]

/-- The Francis envelope does not contain (50, 1). -/
theorem francis_not_contains_p3 : containsPoint TurbineChartGUI.francis (50, 1) = false := by
  norm_num [containsPoint, polygonEdges, edgeCrosses, TurbineChartGUI.francis,
    List.countP_cons, List.countP_nil]

/-- The Kaplan envelope does not contain (50, 1). -/
theorem kaplan_not_contains_p3 : containsPoint TurbineChartGUI.kaplan (50, 1) = false := by
  norm_num [containsPoint, polygonEdges, edgeCrosses, TurbineChartGUI.kaplan,
    List.countP_cons, List.countP_nil]

/-- Evaluation form of the GUI classifier: one containment test per envelope,
results concatenated in dict insertion order. -/
theorem classify_eval (Q H : ℚ) :
    TurbineChartGUI.classify Q H =
      (if containsPoint TurbineChartGUI.pelton (Q, H) then ["Pelton"] else []) ++
      (if containsPoint TurbineChartGUI.francis (Q, H) then ["Francis"] else []) ++
      (if containsPoint TurbineChartGUI.kaplan (Q, H) then ["Kaplan"] else []) := by
  simp only [TurbineChartGUI.classify, TurbineChartGUI.define_envelopes]
  cases h1 : containsPoint TurbineChartGUI.pelton (Q, H) <;>
    cases h2 : containsPoint TurbineChartGUI.francis (Q, H) <;>
      cases h3 : containsPoint TurbineChartGUI.kaplan (Q, H) <;>
        simp [List.filter, h1, h2, h3]

/-- Membership in the classifier result is exactly containment in the
correspondingly named envelope. -/
theorem mem_classify_iff (Q H : ℚ) (name : String) :
    name ∈ TurbineChartGUI.classify Q H ↔
      ∃ poly, (name, poly) ∈ TurbineChartGUI.define_envelopes ∧
        containsPoint poly (Q, H) = true := by
  unfold TurbineChartGUI.classify
  rw [List.mem_map]
  constructor
  · rintro ⟨e, he, rfl⟩
    rw [List.mem_filter] at he
    exact ⟨e.2, by simpa using he.1, he.2⟩
  · rintro ⟨poly, hmem, hc⟩
    exact ⟨(name, poly), List.mem_filter.mpr ⟨hmem, hc⟩, rfl⟩

/-- The GUI classifier at (0.05, 500) returns exactly the Pelton label. -/
theorem classify_p1 : TurbineChartGUI.classify 0.05 500 = ["Pelton"] := by
  rw [classify_eval, pelton_contains_p1, francis_not_contains_p1, kaplan_not_contains_p1]
  rfl

/-- The GUI classifier at (50, 1) returns the empty list. -/
theorem classify_p3 : TurbineChartGUI.classify 50 1 = [] := by
  rw [classify_eval, pelton_not_contains_p3, francis_not_contains_p3, kaplan_not_contains_p3]
  rfl

/-- Every efficiency the table can yield is positive. -/
theorem effGet_pos (t : Option String) : 0 < TurbineChartGUI.effGet t := by
  rcases t with _ | s
  · norm_num [TurbineChartGUI.effGet]
  · by_cases h1 : s = "Pelton"
    · subst h1
      rw [show TurbineChartGUI.effGet (some "Pelton") = 0.915 from rfl]
      norm_num
    · by_cases h2 : s = "Francis"
      · subst h2
        rw [show TurbineChartGUI.effGet (some "Francis") = 0.945 from rfl]
        norm_num
      · by_cases h3 : s = "Kaplan"
        · subst h3
          rw [show TurbineChartGUI.effGet (some "Kaplan") = 0.94 from rfl]
          norm_num
        · have b1 : (s == "Pelton") = false := beq_eq_false_iff_ne.mpr h1
          have b2 : (s == "Francis") = false := beq_eq_false_iff_ne.mpr h2
          have b3 : (s == "Kaplan") = false := beq_eq_false_iff_ne.mpr h3
          norm_num [TurbineChartGUI.effGet, TurbineChartGUI.efficiencies, List.lookup,
            b1, b2, b3]

/-! Claim theorems. -/

/-- C1: for every Q, every H, and every turbine label among Pelton, Francis
and Kaplan, `calculate_power` returns exactly (998 * 9.81 * Q * H * eta) /
1000 with eta = 0.915 for Pelton, 0.945 for Francis and 0.94 for Kaplan.
The embedding is a pure function, so the computation has no side effects. -/
theorem power_formula_matches_labels (Q H : ℚ) :
    TurbineChartGUI.calculate_power Q H (some "Pelton") =
      998 * (9.81 : ℚ) * Q * H * 0.915 / 1000 ∧
    TurbineChartGUI.calculate_power Q H (some "Francis") =
      998 * (9.81 : ℚ) * Q * H * 0.945 / 1000 ∧
    TurbineChartGUI.calculate_power Q H (some "Kaplan") =
      998 * (9.81 : ℚ) * Q * H * 0.94 / 1000 :=
  ⟨rfl, rfl, rfl⟩

/-- C2: with the turbine argument absent (`none`) or any label other than
Pelton, Francis and Kaplan, `calculate_power` uses the default efficiency
0.88, i.e. returns (998 * 9.81 * Q * H * 0.88) / 1000. -/
theorem power_default_efficiency :
    (∀ Q H : ℚ,
      TurbineChartGUI.calculate_power Q H none = 998 * (9.81 : ℚ) * Q * H * 0.88 / 1000) ∧
    (∀ (Q H : ℚ) (s : String), s ≠ "Pelton" → s ≠ "Francis" → s ≠ "Kaplan" →
      TurbineChartGUI.calculate_power Q H (some s) =
        998 * (9.81 : ℚ) * Q * H * 0.88 / 1000) := by
  constructor
  · intro Q H
    rfl
  · intro Q H s h1 h2 h3
    have b1 : (s == "Pelton") = false := beq_eq_false_iff_ne.mpr h1
    have b2 : (s == "Francis") = false := beq_eq_false_iff_ne.mpr h2
    have b3 : (s == "Kaplan") = false := beq_eq_false_iff_ne.mpr h3
    have heff : TurbineChartGUI.effGet (some s) = 0.88 := by
      simp [TurbineChartGUI.effGet, TurbineChartGUI.efficiencies, List.lookup, b1, b2, b3]
    simp only [TurbineChartGUI.calculate_power, heff]

/-- Witness for C2 at a concrete unmatched label and at concrete inputs. -/
theorem power_default_efficiency_witness :
    TurbineChartGUI.calculate_power 1 2 (some "Banki") =
      998 * (9.81 : ℚ) * 1 * 2 * 0.88 / 1000 :=
  power_default_efficiency.2 1 2 "Banki" (by decide) (by decide) (by decide)

/-- C3: the classifier returns exactly the subset of the three envelope names
whose closed polygon contains the query point under the standard
point-in-polygon containment test, and when exactly one envelope contains the
point the result is exactly that one name.  The classifier is a function of
(Q, H) and the fixed polygon data, hence deterministic. -/
theorem classify_exact_subset (Q H : ℚ) :
    (∀ name : String,
      name ∈ TurbineChartGUI.classify Q H ↔
        ∃ poly, (name, poly) ∈ TurbineChartGUI.define_envelopes ∧
          containsPoint poly (Q, H) = true) ∧
    (∀ name poly, (name, poly) ∈ TurbineChartGUI.define_envelopes →
      containsPoint poly (Q, H) = true →
      (∀ name2 poly2, (name2, poly2) ∈ TurbineChartGUI.define_envelopes →
        name2 ≠ name → containsPoint poly2 (Q, H) = false) →
      TurbineChartGUI.classify Q H = [name]) := by
  refine ⟨fun name => mem_classify_iff Q H name, ?_⟩
  intro name poly hmem hc hothers
  have hmem2 :
      (name = "Pelton" ∧ poly = TurbineChartGUI.pelton) ∨
      (name = "Francis" ∧ poly = TurbineChartGUI.francis) ∨
      (name = "Kaplan" ∧ poly = TurbineChartGUI.kaplan) := by
    simpa [TurbineChartGUI.define_envelopes] using hmem
  rw [classify_eval]
  rcases hmem2 with ⟨rfl, rfl⟩ | ⟨rfl, rfl⟩ | ⟨rfl, rfl⟩
  · have hf : containsPoint TurbineChartGUI.francis (Q, H) = false :=
      hothers "Francis" TurbineChartGUI.francis
        (by simp [TurbineChartGUI.define_envelopes]) (by decide)
    have hk : containsPoint TurbineChartGUI.kaplan (Q, H) = false :=
      hothers "Kaplan" TurbineChartGUI.kaplan
        (by simp [TurbineChartGUI.define_envelopes]) (by decide)
    rw [hc, hf, hk]
    rfl
  · have hp : containsPoint TurbineChartGUI.pelton (Q, H) = false :=
      hothers "Pelton" TurbineChartGUI.pelton
        (by simp [TurbineChartGUI.define_envelopes]) (by decide)
    have hk : containsPoint TurbineChartGUI.kaplan (Q, H) = false :=
      hothers "Kaplan" TurbineChartGUI.kaplan
        (by simp [TurbineChartGUI.define_envelopes]) (by decide)
    rw [hc, hp, hk]
    rfl
  · have hp : containsPoint TurbineChartGUI.pelton (Q, H) = false :=
      hothers "Pelton" TurbineChartGUI.pelton
        (by simp [TurbineChartGUI.define_envelopes]) (by decide)
    have hf : containsPoint TurbineChartGUI.francis (Q, H) = false :=
      hothers "Francis" TurbineChartGUI.francis
        (by simp [TurbineChartGUI.define_envelopes]) (by decide)
    rw [hc, hp, hf]
    rfl

/-- Witness for C3 at (0.05, 500), a point strictly inside only the Pelton
envelope: the classifier returns exactly that one name. -/
theorem classify_exact_subset_witness :
    TurbineChartGUI.classify 0.05 500 = ["Pelton"] := by
  refine (classify_exact_subset 0.05 500).2 "Pelton" TurbineChartGUI.pelton
    (by simp [TurbineChartGUI.define_envelopes]) pelton_contains_p1 ?_
  intro name2 poly2 hmem hne
  have hmem2 :
      (name2 = "Pelton" ∧ poly2 = TurbineChartGUI.pelton) ∨
      (name2 = "Francis" ∧ poly2 = TurbineChartGUI.francis) ∨
      (name2 = "Kaplan" ∧ poly2 = TurbineChartGUI.kaplan) := by
    simpa [TurbineChartGUI.define_envelopes] using hmem
  rcases hmem2 with ⟨rfl, rfl⟩ | ⟨rfl, rfl⟩ | ⟨rfl, rfl⟩
  · exact absurd rfl hne
  · exact francis_not_contains_p1
  · exact kaplan_not_contains_p1

/-- C4: a point contained in two envelopes is classified with both of their
names; such overlap points exist, e.g. (2, 300) lies strictly inside both the
Pelton and the Francis envelope. -/
theorem classify_overlap_both :
    (∀ (Q H : ℚ) (name1 : String) (poly1 : List Point) (name2 : String) (poly2 : List Point),
      (name1, poly1) ∈ TurbineChartGUI.define_envelopes →
      (name2, poly2) ∈ TurbineChartGUI.define_envelopes →
      name1 ≠ name2 →
      containsPoint poly1 (Q, H) = true →
      containsPoint poly2 (Q, H) = true →
      name1 ∈ TurbineChartGUI.classify Q H ∧ name2 ∈ TurbineChartGUI.classify Q H) ∧
    containsPoint TurbineChartGUI.pelton (2, 300) = true ∧
    containsPoint TurbineChartGUI.francis (2, 300) = true := by
  refine ⟨?_, pelton_contains_p2, francis_contains_p2⟩
  intro Q H name1 poly1 name2 poly2 h1 h2 _ hc1 hc2
  exact ⟨(mem_classify_iff Q H name1).mpr ⟨poly1, h1, hc1⟩,
    (mem_classify_iff Q H name2).mpr ⟨poly2, h2, hc2⟩⟩

/-- Witness for C4 at the overlap point (2, 300): both names are returned. -/
theorem classify_overlap_both_witness :
    "Pelton" ∈ TurbineChartGUI.classify 2 300 ∧ "Francis" ∈ TurbineChartGUI.classify 2 300 :=
  classify_overlap_both.1 2 300 "Pelton" TurbineChartGUI.pelton "Francis"
    TurbineChartGUI.francis (by simp [TurbineChartGUI.define_envelopes])
    (by simp [TurbineChartGUI.define_envelopes]) (by decide)
    pelton_contains_p2 francis_contains_p2

/-- C5: for a point outside all three envelopes the classifier returns the
empty list, and `create_plot` then reports the power computed by
`calculate_power` without a turbine label, which uses the default efficiency
0.88. -/
theorem outside_all_default_power (Q H : ℚ)
    (hp : containsPoint TurbineChartGUI.pelton (Q, H) = false)
    (hf : containsPoint TurbineChartGUI.francis (Q, H) = false)
    (hk : containsPoint TurbineChartGUI.kaplan (Q, H) = false) :
    TurbineChartGUI.classify Q H = [] ∧
    TurbineChartGUI.create_plot Q H =
      Outcome.noMatch (TurbineChartGUI.calculate_power Q H none) ∧
    TurbineChartGUI.calculate_power Q H none = 998 * (9.81 : ℚ) * Q * H * 0.88 / 1000 := by
  have hcl : TurbineChartGUI.classify Q H = [] := by
    rw [classify_eval, hp, hf, hk]
    rfl
  refine ⟨hcl, ?_, rfl⟩
  simp [TurbineChartGUI.create_plot, hcl]

/-- Witness for C5 at (50, 1), a point outside all three envelopes. -/
theorem outside_all_default_power_witness :
    TurbineChartGUI.classify 50 1 = [] ∧
    TurbineChartGUI.create_plot 50 1 =
      Outcome.noMatch (TurbineChartGUI.calculate_power 50 1 none) ∧
    TurbineChartGUI.calculate_power 50 1 none = 998 * (9.81 : ℚ) * 50 * 1 * 0.88 / 1000 :=
  outside_all_default_power 50 1 pelton_not_contains_p3 francis_not_contains_p3
    kaplan_not_contains_p3

/-- C6 counterexample: at H = 0 the power is 0 for every Q, so the claimed
strict monotonicity in Q for every fixed H fails at Q1 = 0 < Q2 = 1, H = 0. -/
theorem power_monotone_counterexample :
    (0 : ℚ) < 1 ∧
    ¬ TurbineChartGUI.calculate_power 0 0 none < TurbineChartGUI.calculate_power 1 0 none := by
  refine ⟨by norm_num, ?_⟩
  rw [show TurbineChartGUI.calculate_power 0 0 none = 998 * (9.81 : ℚ) * 0 * 0 * 0.88 / 1000
        from rfl,
      show TurbineChartGUI.calculate_power 1 0 none = 998 * (9.81 : ℚ) * 1 * 0 * 0.88 / 1000
        from rfl]
  norm_num

/-- C6 amended: for every fixed turbine label (or its absence) the power
estimator is strictly increasing in Q for every fixed H > 0 and strictly
increasing in H for every fixed Q > 0. -/
theorem power_monotone_pos :
    (∀ (t : Option String) (Q1 Q2 H : ℚ), 0 < H → Q1 < Q2 →
      TurbineChartGUI.calculate_power Q1 H t < TurbineChartGUI.calculate_power Q2 H t) ∧
    (∀ (t : Option String) (Q H1 H2 : ℚ), 0 < Q → H1 < H2 →
      TurbineChartGUI.calculate_power Q H1 t < TurbineChartGUI.calculate_power Q H2 t) := by
  constructor
  · intro t Q1 Q2 H hH hQ
    have he := effGet_pos t
    show 998 * (9.81 : ℚ) * Q1 * H * TurbineChartGUI.effGet t / 1000 <
      998 * (9.81 : ℚ) * Q2 * H * TurbineChartGUI.effGet t / 1000
    rw [div_lt_div_iff_of_pos_right (show (0 : ℚ) < 1000 by norm_num)]
    nlinarith [mul_pos (sub_pos.mpr hQ) (mul_pos hH he)]
  · intro t Q H1 H2 hQ hH
    have he := effGet_pos t
    show 998 * (9.81 : ℚ) * Q * H1 * TurbineChartGUI.effGet t / 1000 <
      998 * (9.81 : ℚ) * Q * H2 * TurbineChartGUI.effGet t / 1000
    rw [div_lt_div_iff_of_pos_right (show (0 : ℚ) < 1000 by norm_num)]
    nlinarith [mul_pos (sub_pos.mpr hH) (mul_pos hQ he)]

/-- Witness for the amended C6 at concrete inputs. -/
theorem power_monotone_pos_witness :
    TurbineChartGUI.calculate_power 1 1 none < TurbineChartGUI.calculate_power 2 1 none ∧
    TurbineChartGUI.calculate_power 1 1 none < TurbineChartGUI.calculate_power 1 2 none :=
  ⟨power_monotone_pos.1 none 1 2 1 (by norm_num) (by norm_num),
   power_monotone_pos.2 none 1 1 2 (by norm_num) (by norm_num)⟩

/-- C7 counterexample: the exact power at Q = 0.05, H = 500 with the Pelton
efficiency is 223.9549425 kW, which is more than 0.1 away from the claimed
approximate value 224.1 kW (so it is not 224.1 to the stated one-decimal
precision). -/
theorem pelton_example_approx_counterexample :
    (1 / 10 : ℚ) < |TurbineChartGUI.calculate_power 0.05 500 (some "Pelton") - 224.1| := by
  rw [show TurbineChartGUI.calculate_power 0.05 500 (some "Pelton") =
        998 * (9.81 : ℚ) * 0.05 * 500 * 0.915 / 1000 from rfl,
      show 998 * (9.81 : ℚ) * 0.05 * 500 * 0.915 / 1000 - 224.1 = -(58023 / 400000) by
        norm_num,
      abs_neg, abs_of_pos (show (0 : ℚ) < 58023 / 400000 by norm_num)]
  norm_num

/-- C7 amended: at Q = 0.05, H = 500 the classifier returns exactly the Pelton
label and the power equals 998 * 9.81 * 0.05 * 500 * 0.915 / 1000 exactly,
which is approximately 224.0 kW (exact value 223.9549425 kW), not 224.1 kW. -/
theorem pelton_example_point :
    TurbineChartGUI.classify 0.05 500 = ["Pelton"] ∧
    TurbineChartGUI.calculate_power 0.05 500 (some "Pelton") =
      998 * (9.81 : ℚ) * 0.05 * 500 * 0.915 / 1000 ∧
    |TurbineChartGUI.calculate_power 0.05 500 (some "Pelton") - 224| < 1 / 10 := by
  refine ⟨classify_p1, rfl, ?_⟩
  rw [show TurbineChartGUI.calculate_power 0.05 500 (some "Pelton") =
        998 * (9.81 : ℚ) * 0.05 * 500 * 0.915 / 1000 from rfl,
      show 998 * (9.81 : ℚ) * 0.05 * 500 * 0.915 / 1000 - 224 = -(18023 / 400000) by
        norm_num,
      abs_neg, abs_of_pos (show (0 : ℚ) < 18023 / 400000 by norm_num)]
  norm_num

/-- C8: at Q = 50, H = 1 the point is outside all three envelopes, the
classifier returns the empty list, and the default-efficiency power equals
998 * 9.81 * 50 * 1 * 0.88 / 1000 exactly, approximately 430.7 kW (exact
value 430.77672 kW). -/
theorem outside_example_point :
    containsPoint TurbineChartGUI.pelton (50, 1) = false ∧
    containsPoint TurbineChartGUI.francis (50, 1) = false ∧
    containsPoint TurbineChartGUI.kaplan (50, 1) = false ∧
    TurbineChartGUI.classify 50 1 = [] ∧
    TurbineChartGUI.calculate_power 50 1 none = 998 * (9.81 : ℚ) * 50 * 1 * 0.88 / 1000 ∧
    |TurbineChartGUI.calculate_power 50 1 none - 430.7| < 1 / 10 := by
  refine ⟨pelton_not_contains_p3, francis_not_contains_p3, kaplan_not_contains_p3,
    classify_p3, rfl, ?_⟩
  rw [show TurbineChartGUI.calculate_power 50 1 none =
        998 * (9.81 : ℚ) * 50 * 1 * 0.88 / 1000 from rfl,
      show 998 * (9.81 : ℚ) * 50 * 1 * 0.88 / 1000 - 430.7 = 959 / 12500 by norm_num,
      abs_of_pos (show (0 : ℚ) < 959 / 12500 by norm_num)]
  norm_num

/-- On validly parsed inputs the script entry point produces exactly the same
evaluation as the GUI entry point (the decision logic of the two files is the
same code). -/
theorem main_eq_create_plot (Q H : ℚ) :
    TurbineChart.main (some Q) (some H) =
      PlotResult.plotted (TurbineChartGUI.create_plot Q H) := by
  have hc : TurbineChart.classify Q H = TurbineChartGUI.classify Q H := rfl
  have hp : ∀ t, TurbineChart.calculate_power Q H t = TurbineChartGUI.calculate_power Q H t :=
    fun _ => rfl
  simp only [TurbineChart.main, TurbineChartGUI.create_plot, hc, hp]
  cases hE : (TurbineChartGUI.classify Q H).isEmpty <;> simp [hE]

/-- C9: in both entry points the only error case is non-numeric input for Q
or H; there the run reports the error and aborts (no retry, no partial
result), and on numeric inputs the evaluation completes normally.  A parse
attempt is modelled by `Option ℚ` (`none` = non-numeric text). -/
theorem input_error_handling (qs hs : Option ℚ) :
    ((TurbineChartGUI.on_plot qs hs = PlotResult.inputError ↔ qs = none ∨ hs = none) ∧
      (∀ q h : ℚ, qs = some q → hs = some h →
        TurbineChartGUI.on_plot qs hs = PlotResult.plotted (TurbineChartGUI.create_plot q h))) ∧
    ((TurbineChart.main qs hs = PlotResult.inputError ↔ qs = none ∨ hs = none) ∧
      (∀ q h : ℚ, qs = some q → hs = some h →
        ∃ o : Outcome, TurbineChart.main qs hs = PlotResult.plotted o)) := by
  rcases qs with _ | q <;> rcases hs with _ | h
  · exact ⟨⟨by simp [TurbineChartGUI.on_plot], fun q2 h2 hq _ => by simp at hq⟩,
      ⟨by simp [TurbineChart.main], fun q2 h2 hq _ => by simp at hq⟩⟩
  · exact ⟨⟨by simp [TurbineChartGUI.on_plot], fun q2 h2 hq _ => by simp at hq⟩,
      ⟨by simp [TurbineChart.main], fun q2 h2 hq _ => by simp at hq⟩⟩
  · exact ⟨⟨by simp [TurbineChartGUI.on_plot], fun q2 h2 _ hh => by simp at hh⟩,
      ⟨by simp [TurbineChart.main], fun q2 h2 _ hh => by simp at hh⟩⟩
  · refine ⟨⟨by simp [TurbineChartGUI.on_plot], ?_⟩, ⟨?_, ?_⟩⟩
    · intro q2 h2 hq hh
      cases hq
      cases hh
      rfl
    · rw [main_eq_create_plot q h]
      simp
    · intro q2 h2 hq hh
      cases hq
      cases hh
      exact ⟨TurbineChartGUI.create_plot q h, main_eq_create_plot q h⟩

/-- Witness for C9: a failed parse of Q aborts both entry points with the
input error, and parsed inputs complete normally. -/
theorem input_error_handling_witness :
    TurbineChartGUI.on_plot none (some 1) = PlotResult.inputError ∧
    TurbineChart.main none (some 1) = PlotResult.inputError ∧
    TurbineChartGUI.on_plot (some 50) (some 1) =
      PlotResult.plotted (TurbineChartGUI.create_plot 50 1) :=
  ⟨(input_error_handling none (some 1)).1.1.mpr (Or.inl rfl),
   (input_error_handling none (some 1)).2.1.mpr (Or.inl rfl),
   (input_error_handling (some 50) (some 1)).1.2 50 1 rfl rfl⟩

/-- C10: the two entry points implement extensionally equal decision logic:
equal envelope vertex lists, equal power results for every (Q, H, label)
triple, equal classification for every query point, and the same evaluation
outcome on every parsed input. -/
theorem entry_points_equivalent :
    TurbineChart.define_envelopes = TurbineChartGUI.define_envelopes ∧
    (∀ (Q H : ℚ) (t : Option String),
      TurbineChart.calculate_power Q H t = TurbineChartGUI.calculate_power Q H t) ∧
    (∀ Q H : ℚ, TurbineChart.classify Q H = TurbineChartGUI.classify Q H) ∧
    (∀ Q H : ℚ, TurbineChart.main (some Q) (some H) =
      PlotResult.plotted (TurbineChartGUI.create_plot Q H)) :=
  ⟨rfl, fun _ _ _ => rfl, fun _ _ => rfl, fun Q H => main_eq_create_plot Q H⟩
